import Mathlib

/-!
Shallow embedding of the glab-setup-git-identity library
(src/src/index.js) and proofs about its operation contracts.

The source file contains two historical variants of the library,
separated by a document marker:
  - variant V1 (lines 1-638): uses command-stream, parses the
    `glab api user` JSON response itself;
  - variant V2 (lines 639-1218): uses node:child_process spawn with an
    explicit execCommand helper, and uses the --jq flag of glab.

Both variants are embedded here, in namespaces V1 and V2.  External
subprocess invocations are modelled by passing the resulting ExecResult
(or the raw spawn outcome) as an explicit argument; the JSON.parse
builtin is modelled as an explicit parse-function argument; the git
configuration store and the contract of the external git executable
(spec section 6) are modelled by an explicit GitState.
-/

/-- Result of a captured subprocess execution, as produced by
execCommand in variant V2: exit code plus trimmed stdout and stderr. -/
structure ExecResult where
  exitCode : Int
  stdout : String
  stderr : String
deriving DecidableEq

/-- Characters removed by the JavaScript String.prototype.trim calls in
the source (the source only ever meets spaces, tabs, CR and LF at the
edges of subprocess output). -/
def isJsWhitespace (c : Char) : Bool :=
  c = ' ' || c = '\n' || c = '\t' || c = '\r'

/-- Trim of a character list: drop whitespace from both ends. -/
def trimChars (l : List Char) : List Char :=
  ((l.dropWhile isJsWhitespace).reverse.dropWhile isJsWhitespace).reverse

/-- Embedding of the JavaScript .trim() method used in the source. -/
def jsTrim (s : String) : String :=
  String.mk (trimChars s.data)

/-- Split a character list on a separator character; always returns at
least one (possibly empty) piece, like the JavaScript .split method. -/
def splitOnCharAux (c : Char) : List Char → List (List Char)
  | [] => [[]]
  | x :: xs =>
    match splitOnCharAux c xs with
    | [] => [[]]
    | h :: t => if x = c then [] :: h :: t else (x :: h) :: t

/-- Embedding of the JavaScript .split(sep) method for a one-character
separator, as used by getGlabPath on the lookup output. -/
def jsSplit (sep : Char) (s : String) : List String :=
  (splitOnCharAux sep s.data).map String.mk

/-- Outcome of a node:child_process spawn, as observed by the two
executor helpers of variant V2: either the child closed (with an exit
code that is null when the child was killed by a signal), or the spawn
itself errored (executable missing, etc.). -/
inductive SpawnOutcome where
  | closed (rawStdout rawStderr : String) (exitCode : Option Int)
  | errored (rawStdout : String) (errMessage : String)

namespace V2

/-- Embedding of execCommand (src/src/index.js lines 679-714).  The
promise always resolves, never rejects: the model is a total function
into ExecResult.  On close, the JavaScript `exitCode || 0` maps a null
exit code (signal termination) to 0; on a spawn error the result is a
synthetic exit code 1 with the error message as stderr. -/
def execCommand : SpawnOutcome → ExecResult
  | .closed rawStdout rawStderr exitCode =>
    { exitCode := match exitCode with | none => 0 | some c => c
      stdout := jsTrim rawStdout
      stderr := jsTrim rawStderr }
  | .errored rawStdout errMessage =>
    { exitCode := 1, stdout := jsTrim rawStdout, stderr := errMessage }

/-- Embedding of execInteractiveCommand (src/src/index.js lines
725-751): only the exit code is reported, with the same
`exitCode || 0` null-handling and the same resolve-on-error shape. -/
def execInteractiveCommand : SpawnOutcome → Int
  | .closed _ _ exitCode => match exitCode with | none => 0 | some c => c
  | .errored _ _ => 1

end V2

/-- Error message raised when the glab executable cannot be located
(src/src/index.js lines 68-70 and 785-787). -/
def installMsg : String :=
  "glab CLI not found. Please install glab: https://gitlab.com/gitlab-org/cli#installation"

/-- The installation reference URL embedded in installMsg. -/
def installUrl : String :=
  "https://gitlab.com/gitlab-org/cli#installation"

namespace V2

/-- Embedding of getGlabPath (src/src/index.js lines 774-795), applied
to the ExecResult of the `which glab` / `where glab` lookup: raises the
installation-hint error on a non-zero exit or empty stdout, otherwise
returns the first output line, trimmed.  Variant V1 (lines 55-86) has
the same observable behaviour: its catch-and-rethrow wrapper re-raises
the same message. -/
def getGlabPath (r : ExecResult) : Except String String :=
  if r.exitCode ≠ 0 ∨ r.stdout = "" then
    .error installMsg
  else
    .ok (jsTrim ((jsSplit '\n' r.stdout).headD ""))

end V2

/-- Error message for a missing or empty username field
(src/src/index.js lines 371-374 and 477-480). -/
def noUsernameMsg : String :=
  "No username found in GitLab user data. Please ensure your GitLab account has a username."

/-- Error message for a missing or empty email field
(src/src/index.js lines 423-426, 483-486 and 1047-1049). -/
def noEmailMsg : String :=
  "No email found on GitLab account. Please set a primary email in your GitLab settings."

/-- Message raised when JSON.parse fails on the user record, embedding
the parser message and the raw stdout (src/src/index.js lines 364-366,
415-417 and 468-470). -/
def parseErrMsg (parserMsg rawOutput : String) : String :=
  "Failed to parse GitLab user data: " ++ parserMsg ++ ". Raw output: " ++ rawOutput

/-- The username and email fields of the parsed GitLab user record.
Each field is absent (JSON null / missing key) or a string; the
JavaScript falsiness test treats absent and empty string alike. -/
structure JsonUser where
  username : Option String
  email : Option String
deriving DecidableEq

/-- User identity returned by the user-info operations. -/
structure UserInfo where
  username : String
  email : String
deriving DecidableEq

/-- JavaScript falsiness of a possibly-absent string field: true when
the field is missing or the empty string. -/
def optFalsy (o : Option String) : Bool :=
  o.getD "" = ""

/-- JavaScript truthiness of a possibly-absent string option value. -/
def optTruthy (o : Option String) : Bool :=
  o.getD "" ≠ ""

namespace V1

/-- Embedding of variant V1 getGitLabUsername (src/src/index.js lines
342-379), applied to the JSON.parse builtin (modelled as an explicit
parse argument) and the ExecResult of `glab api user`: non-zero exit
raises with stderr; a parse failure raises parseErrMsg; a falsy
username field raises noUsernameMsg; otherwise the username. -/
def getGitLabUsername (parse : String → Except String JsonUser)
    (r : ExecResult) : Except String String :=
  if r.exitCode ≠ 0 then
    .error ("Failed to get GitLab username: " ++ r.stderr)
  else
    match parse (jsTrim r.stdout) with
    | .error e => .error (parseErrMsg e r.stdout)
    | .ok u =>
      if optFalsy u.username then .error noUsernameMsg
      else .ok (u.username.getD "")

/-- Embedding of variant V1 getGitLabEmail (src/src/index.js lines
393-431): like getGitLabUsername but for the email field, raising
noEmailMsg when the field is falsy. -/
def getGitLabEmail (parse : String → Except String JsonUser)
    (r : ExecResult) : Except String String :=
  if r.exitCode ≠ 0 then
    .error ("Failed to get GitLab email: " ++ r.stderr)
  else
    match parse (jsTrim r.stdout) with
    | .error e => .error (parseErrMsg e r.stdout)
    | .ok u =>
      if optFalsy u.email then .error noEmailMsg
      else .ok (u.email.getD "")

/-- Embedding of variant V1 getGitLabUserInfo (src/src/index.js lines
446-492): one fetch, then exit check, parse, username check, email
check, in source order. -/
def getGitLabUserInfo (parse : String → Except String JsonUser)
    (r : ExecResult) : Except String UserInfo :=
  if r.exitCode ≠ 0 then
    .error ("Failed to get GitLab user info: " ++ r.stderr)
  else
    match parse (jsTrim r.stdout) with
    | .error e => .error (parseErrMsg e r.stdout)
    | .ok u =>
      if optFalsy u.username then .error noUsernameMsg
      else if optFalsy u.email then .error noEmailMsg
      else .ok ⟨u.username.getD "", u.email.getD ""⟩

end V1

namespace V2

/-- Embedding of variant V2 getGitLabUsername (src/src/index.js lines
995-1016), applied to the ExecResult of `glab api user --jq .username`:
non-zero exit raises with stderr; otherwise the stdout is returned
directly, with no emptiness check on the username. -/
def getGitLabUsername (r : ExecResult) : Except String String :=
  if r.exitCode ≠ 0 then
    .error ("Failed to get GitLab username: " ++ r.stderr)
  else
    .ok r.stdout

/-- Embedding of variant V2 getGitLabEmail (src/src/index.js lines
1027-1055): non-zero exit raises with stderr; an empty (falsy) stdout
raises noEmailMsg; otherwise the stdout. -/
def getGitLabEmail (r : ExecResult) : Except String String :=
  if r.exitCode ≠ 0 then
    .error ("Failed to get GitLab email: " ++ r.stderr)
  else if r.stdout = "" then
    .error noEmailMsg
  else
    .ok r.stdout

/-- Embedding of variant V2 getGitLabUserInfo (src/src/index.js lines
1066-1073): combines the two independent fetch results; a failure of
either call rejects the combination. -/
def getGitLabUserInfo (rUsername rEmail : ExecResult) :
    Except String UserInfo :=
  match getGitLabUsername rUsername, getGitLabEmail rEmail with
  | .ok u, .ok e => .ok ⟨u, e⟩
  | .error e, _ => .error e
  | .ok _, .error e => .error e

end V2

/-- Options consumed by the variant V1 auth-login argument builder
(src/src/index.js lines 93-133).  String-valued options are absent or
a string, with JavaScript truthiness (empty string is falsy). -/
structure AuthOptions where
  hostname : Option String
  gitProtocol : Option String
  apiProtocol : Option String
  apiHost : Option String
  useKeyring : Bool
  jobToken : Option String
  token : Option String
  stdin : Bool
deriving DecidableEq

/-- Recognizer of the three mutually exclusive authentication-method
flags of `glab auth login`. -/
def isAuthFlag (s : String) : Bool :=
  s == "--job-token" || s == "--token" || s == "--stdin"

/-- Number of authentication-method flags occurring in an argument
vector. -/
def countAuthFlags (args : List String) : Nat :=
  args.countP isAuthFlag

namespace V1

/-- The arguments pushed by buildGlabAuthLoginArgs before the
authentication-method branch (src/src/index.js lines 105-121). -/
def loginBaseArgs (o : AuthOptions) : List String :=
  ["auth", "login"]
  ++ (if optTruthy o.hostname then ["--hostname", o.hostname.getD ""] else [])
  ++ (if optTruthy o.gitProtocol then ["--git-protocol", o.gitProtocol.getD ""] else [])
  ++ (if optTruthy o.apiProtocol then ["--api-protocol", o.apiProtocol.getD ""] else [])
  ++ (if optTruthy o.apiHost then ["--api-host", o.apiHost.getD ""] else [])
  ++ (if o.useKeyring then ["--use-keyring"] else [])

/-- The authentication-method arguments pushed by the if/else-if chain
of buildGlabAuthLoginArgs (src/src/index.js lines 124-130): jobToken
over token over stdin. -/
def authMethodArgs (o : AuthOptions) : List String :=
  if optTruthy o.jobToken then ["--job-token", o.jobToken.getD ""]
  else if optTruthy o.token then ["--token", o.token.getD ""]
  else if o.stdin then ["--stdin"]
  else []

/-- Embedding of variant V1 buildGlabAuthLoginArgs (src/src/index.js
lines 93-133): the sequence of pushes is the concatenation of the base
arguments and the authentication-method branch. -/
def buildGlabAuthLoginArgs (o : AuthOptions) : List String :=
  loginBaseArgs o ++ authMethodArgs o

end V1

namespace V2

/-- Embedding of the argument vector built inline by variant V2
runGlabAuthLogin (src/src/index.js lines 822-842): this variant has no
jobToken or stdin option, and a set token causes --stdin to be pushed
(the token is piped to the child process stdin instead). -/
def buildAuthLoginArgs (hostname gitProtocol : Option String)
    (useKeyring : Bool) (token : Option String) : List String :=
  ["auth", "login"]
  ++ (if optTruthy hostname then ["--hostname", hostname.getD ""] else [])
  ++ (if optTruthy gitProtocol then ["--git-protocol", gitProtocol.getD ""] else [])
  ++ (if useKeyring then ["--use-keyring"] else [])
  ++ (if optTruthy token then ["--stdin"] else [])

/-- The text piped to the stdin of `glab auth login` by variant V2
runGlabAuthLogin (src/src/index.js lines 847-849): the token followed
by a newline when a token is set, nothing otherwise. -/
def authLoginInput (token : Option String) : Option String :=
  if optTruthy token then some (token.getD "" ++ "\n") else none

end V2

/-- Git configuration store for one scope: the ordered list of
(key, value) entries, a key possibly occurring several times
(multi-valued keys, as produced by `git config --add`).  The git
executable is an external collaborator; this models its config-file
contract as used by the source (spec sections 4.2 and 6). -/
abbrev ConfigEntries := List (String × String)

/-- Last value recorded for a key, which is what `git config --get`
prints (exit 0), or absence (exit 1). -/
def entriesGet (es : ConfigEntries) (key : String) : Option String :=
  ((es.filter (fun e => e.1 == key)).map (fun e => e.2)).getLast?

/-- Effect of a plain `git config <key> <value>`: replaces a single
existing value or appends a new one, but fails (none) when the key
already has multiple values, which git refuses to overwrite without
--replace-all. -/
def entriesSet (es : ConfigEntries) (key value : String) :
    Option ConfigEntries :=
  match (es.filter (fun e => e.1 == key)).length with
  | 0 => some (es ++ [(key, value)])
  | 1 => some (es.map (fun e => if e.1 == key then (key, value) else e))
  | _ => none

/-- Effect of `git config --add <key> <value>`: appends a new value. -/
def entriesAdd (es : ConfigEntries) (key value : String) : ConfigEntries :=
  es ++ [(key, value)]

/-- ExecResult of a captured `git config --get <key>` run against the
modelled store: the value with exit 0 when set, exit 1 otherwise (the
stderr text of git is not modelled). -/
def gitGetResult (es : ConfigEntries) (key : String) : ExecResult :=
  match entriesGet es key with
  | some v => ⟨0, v, ""⟩
  | none => ⟨1, "", ""⟩

/-- Global and local git configuration files. -/
structure GitState where
  globalEntries : ConfigEntries
  localEntries : ConfigEntries
deriving DecidableEq

/-- Scope flag chosen by setGitConfig and getGitConfig
(src/src/index.js lines 509 and 538, 1090 and 1117): --local exactly
when the scope string is local, --global for anything else. -/
def scopeFlagOf (scope : String) : String :=
  if scope = "local" then "--local" else "--global"

/-- Entries of the configuration file addressed by a scope flag. -/
def GitState.entriesFor (st : GitState) (scopeFlag : String) : ConfigEntries :=
  if scopeFlag = "--local" then st.localEntries else st.globalEntries

/-- Replace the entries of the configuration file addressed by a scope
flag. -/
def GitState.update (st : GitState) (scopeFlag : String)
    (es : ConfigEntries) : GitState :=
  if scopeFlag = "--local" then { st with localEntries := es }
  else { st with globalEntries := es }

/-- One `git config` write command issued by the orchestrator, recorded
in issue order. -/
inductive GitWrite where
  | set (scopeFlag key value : String)
  | add (scopeFlag key value : String)
deriving DecidableEq

/-- Stderr text stands in for what git prints when a plain set meets a
multi-valued key; the source only ever embeds this text in an error
message, never inspects it. -/
def multiValueStderr : String :=
  "warning: key has multiple values"

namespace V2

/-- Embedding of getGitConfig (src/src/index.js lines 1113-1132),
applied to the ExecResult of `git config <scopeFlag> <key>`: a non-zero
exit yields null (absent), a zero exit yields the stdout; the function
never raises, which the Except result type makes explicit. -/
def getGitConfig (r : ExecResult) : Except String (Option String) :=
  if r.exitCode ≠ 0 then .ok none
  else .ok (some r.stdout)

/-- Embedding of setGitConfig (src/src/index.js lines 1086-1101) run
against the modelled git store: issues `git config <scopeFlag> <key>
<value>` and raises with the stderr text when the exit code is
non-zero (in the modelled git contract, exactly when the key is
multi-valued); a failed write leaves the store unchanged. -/
def setGitConfigSt (key value scope : String) (st : GitState) :
    Except String Unit × GitState :=
  match entriesSet (st.entriesFor (scopeFlagOf scope)) key value with
  | some es => (.ok (), st.update (scopeFlagOf scope) es)
  | none =>
    (.error ("Failed to set git config " ++ key ++ ": " ++ multiValueStderr), st)

/-- State-level getGitConfig: the value read through getGitConfig from
the modelled `git config <scopeFlag> <key>` output. -/
def getGitConfigSt (key scope : String) (st : GitState) : Option String :=
  match getGitConfig (gitGetResult (st.entriesFor (scopeFlagOf scope)) key) with
  | .ok v => v
  | .error _ => none

end V2

/-- Current git identity as read by verifyGitIdentity: each field
independently a string or absent. -/
structure GitIdentity where
  username : Option String
  email : Option String
deriving DecidableEq

namespace V2

/-- Embedding of verifyGitIdentity (src/src/index.js lines 1195-1202)
applied to the two ExecResults of the user.name and user.email reads:
both fields go through getGitConfig, and a failure of either read would
reject the combination (none can, which the theorem about this
definition establishes). -/
def verifyGitIdentityR (rName rEmail : ExecResult) :
    Except String GitIdentity :=
  match getGitConfig rName, getGitConfig rEmail with
  | .ok u, .ok e => .ok ⟨u, e⟩
  | .error e, _ => .error e
  | .ok _, .error e => .error e

/-- State-level verifyGitIdentity against the modelled git store. -/
def verifyGitIdentitySt (scope : String) (st : GitState) : GitIdentity :=
  ⟨getGitConfigSt "user.name" scope st, getGitConfigSt "user.email" scope st⟩

/-- Embedding of setupGitIdentity (src/src/index.js lines 1145-1184),
applied to the outcome of the getGitLabUserInfo fetch and run against
the modelled git store.  Returns the operation outcome, the final
store, and the list of issued git config writes in order: a fetch
failure propagates with no write; dry-run returns the identity with no
write; otherwise user.name is written first, then user.email, each
write error propagating immediately. -/
def setupGitIdentitySt (fetched : Except String UserInfo)
    (scope : String) (dryRun : Bool) (st : GitState) :
    Except String UserInfo × GitState × List GitWrite :=
  match fetched with
  | .error e => (.error e, st, [])
  | .ok u =>
    if dryRun then (.ok u, st, [])
    else
      let nameWrite := GitWrite.set (scopeFlagOf scope) "user.name" u.username
      match setGitConfigSt "user.name" u.username scope st with
      | (.error e, st1) => (.error e, st1, [nameWrite])
      | (.ok _, st1) =>
        let emailWrite := GitWrite.set (scopeFlagOf scope) "user.email" u.email
        match setGitConfigSt "user.email" u.email scope st1 with
        | (.error e, st2) => (.error e, st2, [nameWrite, emailWrite])
        | (.ok _, st2) => (.ok u, st2, [nameWrite, emailWrite])

/-- Embedding of the return value of runGlabAuthSetupGit
(src/src/index.js lines 876-953; variant V1 lines 215-292 has identical
control flow), applied to the ExecResults of its four subprocess
invocations: the executable lookup, the existing-helper read, the
clearing set (whose result the source discards), and the final add.
The try/catch maps a getGlabPath failure to false; an existing
non-empty helper with force unset short-circuits to true; otherwise the
result is false exactly when the final add exits non-zero. -/
def runGlabAuthSetupGitR (whichRes existingRes _clearRes addRes : ExecResult)
    (force : Bool) : Bool :=
  match getGlabPath whichRes with
  | .error _ => false
  | .ok _ =>
    if existingRes.exitCode = 0 ∧ existingRes.stdout ≠ "" ∧ force = false then
      true
    else if addRes.exitCode ≠ 0 then false
    else true

/-- Embedding of runGlabAuthSetupGit (src/src/index.js lines 876-953)
run against the modelled git store, given the ExecResult of the
executable lookup.  Returns the result, the final store, and the issued
writes: a lookup failure is caught and yields false with no write; an
existing non-empty helper with force unset yields true with no write;
otherwise the helper chain is cleared with a plain set whose failure is
ignored, and the glab helper is added (an add never fails in the
modelled git contract, so this path yields true). -/
def runGlabAuthSetupGitSt (whichRes : ExecResult) (force : Bool)
    (hostname : String) (st : GitState) :
    Bool × GitState × List GitWrite :=
  match getGlabPath whichRes with
  | .error _ => (false, st, [])
  | .ok glabPath =>
    let key := "credential.https://" ++ hostname ++ ".helper"
    let credentialHelper := "!" ++ glabPath ++ " auth git-credential"
    let existing := gitGetResult st.globalEntries key
    if existing.exitCode = 0 ∧ existing.stdout ≠ "" ∧ force = false then
      (true, st, [])
    else
      let es1 :=
        match entriesSet st.globalEntries key "" with
        | some es => es
        | none => st.globalEntries
      let es2 := entriesAdd es1 key credentialHelper
      (true, { st with globalEntries := es2 },
        [GitWrite.set "--global" key "", GitWrite.add "--global" key credentialHelper])

end V2

/-! ### Helper lemmas -/

theorem append_ne_empty_right (a b : String) (hb : b ≠ "") : a ++ b ≠ "" := by
  intro h
  apply hb
  have hd : (a ++ b).data = [] := by rw [h]
  rw [String.data_append] at hd
  rcases List.append_eq_nil.mp hd with ⟨_, hb2⟩
  exact String.ext hb2

theorem entriesGet_concat (es : ConfigEntries) (key v : String) :
    entriesGet (es ++ [(key, v)]) key = some v := by
  unfold entriesGet
  rw [List.filter_append, List.map_append]
  simp

theorem getGlabPath_error_msg (w : ExecResult) (m : String)
    (h : V2.getGlabPath w = .error m) : m = installMsg := by
  unfold V2.getGlabPath at h
  split at h
  · exact (Except.error.injEq _ _).mp h |>.symm
  · exact absurd h (by simp)

/-! ### Theorems for the claims -/

/-- Claim C10: the two command executors always resolve, never reject (they
are total functions into a result); a child killed by a signal reports
a null exit code, which the `exitCode or 0` expression maps to 0, so
its ExecResult coincides with that of a child exiting 0 and is
indistinguishable from success at every call site branching on
exitCode; a spawn error also resolves, with a synthetic exit code 1
and the error message as stderr. -/
theorem execCommand_signal_indistinguishable (rawOut rawErr msg : String) :
    (V2.execCommand (.closed rawOut rawErr none)).exitCode = 0
    ∧ V2.execCommand (.closed rawOut rawErr none)
        = V2.execCommand (.closed rawOut rawErr (some 0))
    ∧ V2.execInteractiveCommand (.closed rawOut rawErr none)
        = V2.execInteractiveCommand (.closed rawOut rawErr (some 0))
    ∧ V2.execCommand (.errored rawOut msg) = ⟨1, jsTrim rawOut, msg⟩ :=
  ⟨rfl, rfl, rfl, rfl⟩

/-- Claim C7: getGitConfig maps a non-zero subprocess exit to the absent
result and a zero exit to the captured stdout, and never raises; hence
verifyGitIdentityR never raises either, returning an identity whose
fields are independently present or absent. -/
theorem getGitConfig_absent_on_failure (r rName rEmail : ExecResult) :
    V2.getGitConfig r = .ok (if r.exitCode = 0 then some r.stdout else none)
    ∧ V2.verifyGitIdentityR rName rEmail
        = .ok ⟨if rName.exitCode = 0 then some rName.stdout else none,
               if rEmail.exitCode = 0 then some rEmail.stdout else none⟩ := by
  refine ⟨?_, ?_⟩
  · by_cases h : r.exitCode = 0 <;> simp [V2.getGitConfig, h]
  · by_cases h1 : rName.exitCode = 0 <;> by_cases h2 : rEmail.exitCode = 0 <;>
      simp [V2.verifyGitIdentityR, V2.getGitConfig, h1, h2]

/-- Claim C8: getGlabPath returns the first line of the lookup stdout,
trimmed, when the lookup exits 0 with non-empty output, and raises the
not-found error, whose message contains the installation reference
URL, when the lookup prints nothing or exits non-zero. -/
theorem getGlabPath_first_line_or_install_hint (r : ExecResult) :
    (r.exitCode = 0 ∧ r.stdout ≠ "" →
      V2.getGlabPath r = .ok (jsTrim ((jsSplit '\n' r.stdout).headD "")))
    ∧ (r.exitCode ≠ 0 ∨ r.stdout = "" →
      ∃ a b, V2.getGlabPath r = .error (a ++ (installUrl ++ b))) := by
  constructor
  · rintro ⟨h1, h2⟩
    unfold V2.getGlabPath
    rw [if_neg (by simp [h1, h2])]
  · intro h
    refine ⟨"glab CLI not found. Please install glab: ", "", ?_⟩
    have hmsg : "glab CLI not found. Please install glab: " ++ (installUrl ++ "")
        = installMsg := by
      decide
    rw [hmsg]
    unfold V2.getGlabPath
    rw [if_pos h]

theorem getGlabPath_first_line_or_install_hint_witness :
    V2.getGlabPath ⟨0, "/usr/bin/glab\n/opt/glab", ""⟩ = .ok "/usr/bin/glab"
    ∧ ∃ a b, V2.getGlabPath ⟨1, "", ""⟩ = .error (a ++ (installUrl ++ b)) := by
  constructor
  · have h := (getGlabPath_first_line_or_install_hint
      ⟨0, "/usr/bin/glab\n/opt/glab", ""⟩).1 ⟨rfl, by decide⟩
    rw [h]
    exact congrArg Except.ok (by decide)
  · exact (getGlabPath_first_line_or_install_hint ⟨1, "", ""⟩).2 (Or.inl (by decide))

/-- Claim C9: when JSON.parse (modelled as the parse argument) fails on the
trimmed fetched record, each variant V1 user-record operation raises
an error whose message embeds both the parser message and the raw
stdout text. -/
theorem parse_failure_embeds_raw_output
    (parse : String → Except String JsonUser) (r : ExecResult) (e : String)
    (hexit : r.exitCode = 0) (hparse : parse (jsTrim r.stdout) = .error e) :
    V1.getGitLabUsername parse r = .error (parseErrMsg e r.stdout)
    ∧ V1.getGitLabEmail parse r = .error (parseErrMsg e r.stdout)
    ∧ V1.getGitLabUserInfo parse r = .error (parseErrMsg e r.stdout)
    ∧ ∃ a b c, parseErrMsg e r.stdout = a ++ (e ++ (b ++ (r.stdout ++ c))) := by
  refine ⟨?_, ?_, ?_,
    "Failed to parse GitLab user data: ", ". Raw output: ", "", ?_⟩
  · simp [V1.getGitLabUsername, hexit, hparse]
  · simp [V1.getGitLabEmail, hexit, hparse]
  · simp [V1.getGitLabUserInfo, hexit, hparse]
  · simp [parseErrMsg, String.append_assoc, String.append_empty]

theorem parse_failure_embeds_raw_output_witness :
    V1.getGitLabUserInfo (fun _ => .error "Unexpected token") ⟨0, "notjson", ""⟩
      = .error (parseErrMsg "Unexpected token" "notjson") :=
  (parse_failure_embeds_raw_output (fun _ => .error "Unexpected token")
    ⟨0, "notjson", ""⟩ "Unexpected token" rfl rfl).2.2.1

/-- Claim C2 counterexample: the variant V2 getGitLabUsername (the jq
variant, src/src/index.js lines 995-1016), on a user fetch that exited
0 with empty stdout (an account whose username field is empty), does
not raise a no-username error: it returns the empty string, and the
variant V2 getGitLabUserInfo built on it then returns an identity
whose username is the empty string. -/
theorem jq_variant_returns_empty_username :
    V2.getGitLabUsername ⟨0, "", ""⟩ = .ok ""
    ∧ V2.getGitLabUserInfo ⟨0, "", ""⟩ ⟨0, "ada@example.com", ""⟩
        = .ok ⟨"", "ada@example.com"⟩ :=
  ⟨rfl, rfl⟩

/-- Claim C2 (amended): in variant V1, a missing-or-empty username raises the
no-username error from getGitLabUsername and getGitLabUserInfo, a
missing-or-empty email raises the no-email error from getGitLabEmail
and (when the username is present) from getGitLabUserInfo, and a
successful getGitLabUserInfo never carries an empty field; in variant
V2, getGitLabEmail raises the no-email error on empty output, but
getGitLabUsername performs no username check and returns the output as
is, so it can return the empty string. -/
theorem empty_identity_field_checks
    (parse : String → Except String JsonUser) (r r2 : ExecResult) (u : JsonUser)
    (hexit : r.exitCode = 0) (hparse : parse (jsTrim r.stdout) = .ok u)
    (hexit2 : r2.exitCode = 0) :
    (optFalsy u.username = true →
      V1.getGitLabUsername parse r = .error noUsernameMsg
      ∧ V1.getGitLabUserInfo parse r = .error noUsernameMsg)
    ∧ (optFalsy u.email = true →
      V1.getGitLabEmail parse r = .error noEmailMsg)
    ∧ (optFalsy u.username = false → optFalsy u.email = true →
      V1.getGitLabUserInfo parse r = .error noEmailMsg)
    ∧ (∀ v, V1.getGitLabUserInfo parse r = .ok v → v.username ≠ "" ∧ v.email ≠ "")
    ∧ (r2.stdout = "" → V2.getGitLabEmail r2 = .error noEmailMsg)
    ∧ V2.getGitLabUsername r2 = .ok r2.stdout := by
  refine ⟨?_, ?_, ?_, ?_, ?_, ?_⟩
  · intro hu
    constructor
    · simp [V1.getGitLabUsername, hexit, hparse, hu]
    · simp [V1.getGitLabUserInfo, hexit, hparse, hu]
  · intro he
    simp [V1.getGitLabEmail, hexit, hparse, he]
  · intro hu he
    simp [V1.getGitLabUserInfo, hexit, hparse, hu, he]
  · intro v hv
    simp only [V1.getGitLabUserInfo, hexit, hparse] at hv
    rw [if_neg (by simp [hexit])] at hv
    cases hfu : optFalsy u.username with
    | true => rw [if_pos hfu] at hv; exact absurd hv (by simp)
    | false =>
      rw [if_neg (by simp [hfu])] at hv
      cases hfe : optFalsy u.email with
      | true => rw [if_pos hfe] at hv; exact absurd hv (by simp)
      | false =>
        rw [if_neg (by simp [hfe])] at hv
        have hv2 : (⟨u.username.getD "", u.email.getD ""⟩ : UserInfo) = v := by
          simpa using hv
        rw [← hv2]
        constructor
        · simpa [optFalsy] using hfu
        · simpa [optFalsy] using hfe
  · intro h2
    simp [V2.getGitLabEmail, hexit2, h2]
  · simp [V2.getGitLabUsername, hexit2]

theorem empty_identity_field_checks_witness :
    V1.getGitLabUserInfo (fun _ => .ok ⟨some "", some "ada@example.com"⟩)
        ⟨0, "x", ""⟩ = .error noUsernameMsg
    ∧ V2.getGitLabEmail ⟨0, "", ""⟩ = .error noEmailMsg := by
  have h := empty_identity_field_checks
    (fun _ => .ok ⟨some "", some "ada@example.com"⟩)
    ⟨0, "x", ""⟩ ⟨0, "", ""⟩ ⟨some "", some "ada@example.com"⟩ rfl rfl rfl
  exact ⟨(h.1 (by decide)).2, h.2.2.2.2.1 rfl⟩

/-- Claim C3 counterexample: in the spawn-based variant V2 (src/src/index.js
lines 839-849), a set token with no job token does not yield
`--token <value>`: the built argument vector (here at the default
hostname and protocols) carries --stdin instead, with the token text
piped to the child stdin. -/
theorem token_yields_stdin_in_spawn_variant :
    "--token" ∉ V2.buildAuthLoginArgs (some "gitlab.com") (some "https") false (some "T")
    ∧ "--stdin" ∈ V2.buildAuthLoginArgs (some "gitlab.com") (some "https") false (some "T")
    ∧ V2.authLoginInput (some "T") = some ("T" ++ "\n") := by
  decide

theorem countAuthFlags_append (xs ys : List String) :
    countAuthFlags (xs ++ ys) = countAuthFlags xs + countAuthFlags ys := by
  simp [countAuthFlags]

theorem countAuthFlags_flagPair (flag v : String)
    (hf : isAuthFlag flag = false) (hv : isAuthFlag v = false)
    (c : Prop) [Decidable c] :
    countAuthFlags (if c then [flag, v] else []) = 0 := by
  split <;> simp [countAuthFlags, List.countP_cons, hf, hv]

theorem countAuthFlags_flagSingle (flag : String)
    (hf : isAuthFlag flag = false) (c : Prop) [Decidable c] :
    countAuthFlags (if c then [flag] else []) = 0 := by
  split <;> simp [countAuthFlags, List.countP_cons, hf]

theorem countAuthFlags_loginBaseArgs (o : AuthOptions)
    (h1 : isAuthFlag (o.hostname.getD "") = false)
    (h2 : isAuthFlag (o.gitProtocol.getD "") = false)
    (h3 : isAuthFlag (o.apiProtocol.getD "") = false)
    (h4 : isAuthFlag (o.apiHost.getD "") = false) :
    countAuthFlags (V1.loginBaseArgs o) = 0 := by
  unfold V1.loginBaseArgs
  rw [countAuthFlags_append, countAuthFlags_append, countAuthFlags_append,
    countAuthFlags_append, countAuthFlags_append,
    countAuthFlags_flagPair "--hostname" (o.hostname.getD "") (by decide) h1,
    countAuthFlags_flagPair "--git-protocol" (o.gitProtocol.getD "") (by decide) h2,
    countAuthFlags_flagPair "--api-protocol" (o.apiProtocol.getD "") (by decide) h3,
    countAuthFlags_flagPair "--api-host" (o.apiHost.getD "") (by decide) h4,
    countAuthFlags_flagSingle "--use-keyring" (by decide)]
  decide

theorem countAuthFlags_authMethodArgs (o : AuthOptions)
    (h5 : isAuthFlag (o.jobToken.getD "") = false)
    (h6 : isAuthFlag (o.token.getD "") = false)
    (hset : optTruthy o.jobToken = true ∨ optTruthy o.token = true ∨ o.stdin = true) :
    countAuthFlags (V1.authMethodArgs o) = 1 := by
  have hjt : isAuthFlag "--job-token" = true := by decide
  have htk : isAuthFlag "--token" = true := by decide
  have hst : isAuthFlag "--stdin" = true := by decide
  unfold V1.authMethodArgs
  cases hj : optTruthy o.jobToken with
  | true =>
    rw [if_pos (by simp [hj])]
    simp [countAuthFlags, List.countP_cons, hjt, h5]
  | false =>
    rw [if_neg (by simp [hj])]
    cases ht : optTruthy o.token with
    | true =>
      rw [if_pos (by simp [ht])]
      simp [countAuthFlags, List.countP_cons, htk, h6]
    | false =>
      rw [if_neg (by simp [ht])]
      cases hs : o.stdin with
      | true =>
        rw [if_pos (by simp [hs])]
        simp [countAuthFlags, List.countP_cons, hst]
      | false =>
        rcases hset with h | h | h
        · rw [hj] at h; exact absurd h (by simp)
        · rw [ht] at h; exact absurd h (by simp)
        · rw [hs] at h; exact absurd h (by simp)

theorem flag_ne_of_isAuthFlag_false (flag v : String)
    (hf : isAuthFlag flag = true) (hv : isAuthFlag v = false) : flag ≠ v := by
  intro h
  rw [← h, hf] at hv
  exact absurd hv (by simp)

/-- Claim C3 (amended): variant V1 buildGlabAuthLoginArgs appends exactly one
of the three authentication-method flags, selected by the precedence
jobToken over token over stdin — in particular a set token with no job
token yields `--token <value>` — provided the option values are not
themselves flag strings; variant V2 runGlabAuthLogin instead appends
--stdin whenever a token is set, never --token or --job-token, and
pipes the token text followed by a newline to the child stdin. -/
theorem auth_method_flag_selection (o : AuthOptions) (t : String)
    (hvals : isAuthFlag (o.hostname.getD "") = false
      ∧ isAuthFlag (o.gitProtocol.getD "") = false
      ∧ isAuthFlag (o.apiProtocol.getD "") = false
      ∧ isAuthFlag (o.apiHost.getD "") = false
      ∧ isAuthFlag (o.jobToken.getD "") = false
      ∧ isAuthFlag (o.token.getD "") = false)
    (ht : t ≠ "") :
    ((optTruthy o.jobToken = true ∨ optTruthy o.token = true ∨ o.stdin = true) →
      countAuthFlags (V1.buildGlabAuthLoginArgs o) = 1)
    ∧ (optTruthy o.jobToken = true →
        V1.authMethodArgs o = ["--job-token", o.jobToken.getD ""])
    ∧ (optTruthy o.jobToken = false → optTruthy o.token = true →
        V1.authMethodArgs o = ["--token", o.token.getD ""])
    ∧ (optTruthy o.jobToken = false → optTruthy o.token = false → o.stdin = true →
        V1.authMethodArgs o = ["--stdin"])
    ∧ "--stdin" ∈ V2.buildAuthLoginArgs o.hostname o.gitProtocol o.useKeyring (some t)
    ∧ "--token" ∉ V2.buildAuthLoginArgs o.hostname o.gitProtocol o.useKeyring (some t)
    ∧ "--job-token" ∉ V2.buildAuthLoginArgs o.hostname o.gitProtocol o.useKeyring (some t)
    ∧ V2.authLoginInput (some t) = some (t ++ "\n") := by
  obtain ⟨h1, h2, h3, h4, h5, h6⟩ := hvals
  have htop : optTruthy (some t) = true := by simp [optTruthy, ht]
  refine ⟨?_, ?_, ?_, ?_, ?_, ?_, ?_, ?_⟩
  · intro hset
    unfold V1.buildGlabAuthLoginArgs
    rw [countAuthFlags_append, countAuthFlags_loginBaseArgs o h1 h2 h3 h4,
      countAuthFlags_authMethodArgs o h5 h6 hset]
  · intro hj
    unfold V1.authMethodArgs
    rw [if_pos (by simp [hj])]
  · intro hj htk
    unfold V1.authMethodArgs
    rw [if_neg (by simp [hj]), if_pos (by simp [htk])]
  · intro hj htk hs
    unfold V1.authMethodArgs
    rw [if_neg (by simp [hj]), if_neg (by simp [htk]), if_pos (by simp [hs])]
  · simp [V2.buildAuthLoginArgs, htop]
  · have hn1 := flag_ne_of_isAuthFlag_false "--token" (o.hostname.getD "") (by decide) h1
    have hn2 := flag_ne_of_isAuthFlag_false "--token" (o.gitProtocol.getD "") (by decide) h2
    simp [V2.buildAuthLoginArgs, htop, hn1, hn2]
  · have hn1 := flag_ne_of_isAuthFlag_false "--job-token" (o.hostname.getD "") (by decide) h1
    have hn2 := flag_ne_of_isAuthFlag_false "--job-token" (o.gitProtocol.getD "") (by decide) h2
    simp [V2.buildAuthLoginArgs, htop, hn1, hn2]
  · simp [V2.authLoginInput, htop]

theorem auth_method_flag_selection_witness :
    countAuthFlags (V1.buildGlabAuthLoginArgs
      ⟨some "gitlab.com", some "https", some "https", none, false, none, some "T", false⟩) = 1
    ∧ V1.authMethodArgs
        ⟨some "gitlab.com", some "https", some "https", none, false, none, some "T", false⟩
        = ["--token", "T"]
    ∧ V2.authLoginInput (some "T") = some ("T" ++ "\n") := by
  have h := auth_method_flag_selection
    ⟨some "gitlab.com", some "https", some "https", none, false, none, some "T", false⟩
    "T" (by decide) (by decide)
  exact ⟨h.1 (Or.inr (Or.inl (by decide))), h.2.2.1 (by decide) (by decide), h.2.2.2.2.2.2.2⟩

/-- Claim C1 counterexample: an execution of runGlabAuthSetupGit in which the
executable lookup fails (exit 1, no output) while every git step — in
particular the final add — exits 0 still returns false: the lookup
failure is caught and mapped to false, refuting the claim that only a
failed final add step produces a false return. -/
theorem lookup_failure_returns_false :
    V2.getGlabPath ⟨1, "", ""⟩ = .error installMsg
    ∧ V2.runGlabAuthSetupGitR ⟨1, "", ""⟩ ⟨1, "", ""⟩ ⟨0, "", ""⟩ ⟨0, "", ""⟩ false
        = false :=
  ⟨rfl, rfl⟩

/-- Claim C1 (amended): runGlabAuthSetupGit returns false exactly when the
glab executable lookup fails (the thrown error is caught by the
surrounding try block and mapped to false) or when the
already-configured short-circuit does not apply and the final add step
exits non-zero; no other outcome yields false. -/
theorem runGlabAuthSetupGit_false_iff (w e c a : ExecResult) (force : Bool) :
    V2.runGlabAuthSetupGitR w e c a force = false ↔
      V2.getGlabPath w = .error installMsg
      ∨ ((∃ p, V2.getGlabPath w = .ok p)
          ∧ ¬(e.exitCode = 0 ∧ e.stdout ≠ "" ∧ force = false)
          ∧ a.exitCode ≠ 0) := by
  cases hw : V2.getGlabPath w with
  | error m =>
    have hm := getGlabPath_error_msg w m hw
    subst hm
    simp [V2.runGlabAuthSetupGitR, hw]
  | ok p =>
    by_cases hc : e.exitCode = 0 ∧ e.stdout ≠ "" ∧ force = false
    · simp [V2.runGlabAuthSetupGitR, hw, hc]
    · by_cases ha : a.exitCode = 0 <;>
        simp [V2.runGlabAuthSetupGitR, hw, hc, ha]

/-- Claim C5: a dry-run setupGitIdentity with a successfully fetched identity
returns that identity, leaves the git store untouched and issues zero
config writes, so a subsequent verifyGitIdentity (at any scope)
observes an unchanged state. -/
theorem setupGitIdentity_dryRun_no_write (u : UserInfo) (scope vscope : String)
    (st : GitState) :
    V2.setupGitIdentitySt (.ok u) scope true st = (.ok u, st, [])
    ∧ V2.verifyGitIdentitySt vscope (V2.setupGitIdentitySt (.ok u) scope true st).2.1
        = V2.verifyGitIdentitySt vscope st :=
  ⟨rfl, rfl⟩

theorem setGitConfigSt_error_state (key value scope : String) (st : GitState)
    (m : String) (h : (V2.setGitConfigSt key value scope st).1 = .error m) :
    (V2.setGitConfigSt key value scope st).2 = st := by
  unfold V2.setGitConfigSt at h ⊢
  cases hset : entriesSet (st.entriesFor (scopeFlagOf scope)) key value with
  | some es => rw [hset] at h; exact absurd h (by simp)
  | none => simp [hset]

/-- Claim C6: a non-dry-run setupGitIdentity with a successfully fetched
identity issues the user.name write first; when that write fails the
user.email write is never issued, the write error propagates as the
operation result, and the store stays exactly as the failed write left
it (no rollback); when the user.name write succeeds the user.email
write is issued second. -/
theorem setupGitIdentity_name_before_email (u : UserInfo) (scope : String)
    (st : GitState) :
    ((V2.setupGitIdentitySt (.ok u) scope false st).2.2.head?
      = some (GitWrite.set (scopeFlagOf scope) "user.name" u.username))
    ∧ (∀ m, (V2.setGitConfigSt "user.name" u.username scope st).1 = .error m →
        V2.setupGitIdentitySt (.ok u) scope false st
          = (.error m, st, [GitWrite.set (scopeFlagOf scope) "user.name" u.username]))
    ∧ ((V2.setGitConfigSt "user.name" u.username scope st).1 = .ok () →
        (V2.setupGitIdentitySt (.ok u) scope false st).2.2
          = [GitWrite.set (scopeFlagOf scope) "user.name" u.username,
             GitWrite.set (scopeFlagOf scope) "user.email" u.email]) := by
  cases hset : V2.setGitConfigSt "user.name" u.username scope st with
  | mk res st1 =>
    cases res with
    | error m0 =>
      have hst1 : st1 = st := by
        have := setGitConfigSt_error_state "user.name" u.username scope st m0
          (by rw [hset])
        rw [hset] at this
        exact this
      refine ⟨?_, ?_, ?_⟩
      · simp [V2.setupGitIdentitySt, hset]
      · intro m hm
        have hmm : m0 = m := by simpa using hm
        subst hmm
        simp [V2.setupGitIdentitySt, hset, hst1]
      · intro hok
        exact absurd hok (by simp)
    | ok unitVal =>
      refine ⟨?_, ?_, ?_⟩
      · cases hset2 : V2.setGitConfigSt "user.email" u.email scope st1 with
        | mk res2 st2 =>
          cases res2 <;> simp [V2.setupGitIdentitySt, hset, hset2]
      · intro m hm
        exact absurd hm (by simp)
      · intro _
        cases hset2 : V2.setGitConfigSt "user.email" u.email scope st1 with
        | mk res2 st2 =>
          cases res2 <;> simp [V2.setupGitIdentitySt, hset, hset2]

theorem setupGitIdentity_name_before_email_witness :
    V2.setupGitIdentitySt (.ok ⟨"ada", "ada@example.com"⟩) "global" false
        ⟨[("user.name", "a"), ("user.name", "b")], []⟩
      = (.error ("Failed to set git config " ++ "user.name" ++ ": " ++ multiValueStderr),
         ⟨[("user.name", "a"), ("user.name", "b")], []⟩,
         [GitWrite.set "--global" "user.name" "ada"]) := by
  have h := (setupGitIdentity_name_before_email ⟨"ada", "ada@example.com"⟩ "global"
    ⟨[("user.name", "a"), ("user.name", "b")], []⟩).2.1
    ("Failed to set git config " ++ "user.name" ++ ": " ++ multiValueStderr) rfl
  rw [h]
  rfl

theorem gitGetResult_add (es : ConfigEntries) (key v : String) :
    gitGetResult (entriesAdd es key v) key = ⟨0, v, ""⟩ := by
  unfold gitGetResult entriesAdd
  rw [entriesGet_concat]

theorem runGlabAuthSetupGitSt_sets_helper (w : ExecResult) (f : Bool)
    (host : String) (st : GitState) (p : String)
    (hw : V2.getGlabPath w = .ok p) :
    ∃ v, entriesGet ((V2.runGlabAuthSetupGitSt w f host st).2.1).globalEntries
        ("credential.https://" ++ host ++ ".helper") = some v ∧ v ≠ "" := by
  by_cases hc : (gitGetResult st.globalEntries
        ("credential.https://" ++ host ++ ".helper")).exitCode = 0
      ∧ (gitGetResult st.globalEntries
        ("credential.https://" ++ host ++ ".helper")).stdout ≠ ""
      ∧ f = false
  · have hst : (V2.runGlabAuthSetupGitSt w f host st).2.1 = st := by
      simp only [V2.runGlabAuthSetupGitSt, hw]
      rw [if_pos hc]
    rw [hst]
    obtain ⟨hcode, hout, _⟩ := hc
    cases hg : entriesGet st.globalEntries
        ("credential.https://" ++ host ++ ".helper") with
    | none =>
      exfalso
      unfold gitGetResult at hcode
      rw [hg] at hcode
      exact absurd hcode (by decide)
    | some v =>
      refine ⟨v, rfl, ?_⟩
      unfold gitGetResult at hout
      rw [hg] at hout
      exact hout
  · simp only [V2.runGlabAuthSetupGitSt, hw]
    rw [if_neg hc]
    exact ⟨"!" ++ p ++ " auth git-credential", entriesGet_concat _ _ _,
      append_ne_empty_right _ _ (by decide)⟩

theorem runGlabAuthSetupGitSt_short_circuit (w : ExecResult) (host : String)
    (st : GitState) (p v : String)
    (hw : V2.getGlabPath w = .ok p)
    (hv : entriesGet st.globalEntries
      ("credential.https://" ++ host ++ ".helper") = some v)
    (hne : v ≠ "") :
    V2.runGlabAuthSetupGitSt w false host st = (true, st, []) := by
  have hg : gitGetResult st.globalEntries
      ("credential.https://" ++ host ++ ".helper") = ⟨0, v, ""⟩ := by
    unfold gitGetResult
    rw [hv]
  simp only [V2.runGlabAuthSetupGitSt, hw]
  simp [hg, hne]

/-- Claim C4: if runGlabAuthSetupGit once returned true, a second call with
force unset, run against the store the first call left and with the
same executable lookup, returns true, leaves the store unchanged and
issues no git config write: the helper value produced by the first
call stays in place. -/
theorem setupGitCredentialHelper_idempotent (w : ExecResult) (f : Bool)
    (host : String) (st : GitState)
    (h1 : (V2.runGlabAuthSetupGitSt w f host st).1 = true) :
    V2.runGlabAuthSetupGitSt w false host (V2.runGlabAuthSetupGitSt w f host st).2.1
      = (true, (V2.runGlabAuthSetupGitSt w f host st).2.1, []) := by
  cases hw : V2.getGlabPath w with
  | error m =>
    have hfalse : (V2.runGlabAuthSetupGitSt w f host st).1 = false := by
      simp [V2.runGlabAuthSetupGitSt, hw]
    rw [hfalse] at h1
    exact absurd h1 (by simp)
  | ok p =>
    obtain ⟨v, hv, hne⟩ := runGlabAuthSetupGitSt_sets_helper w f host st p hw
    exact runGlabAuthSetupGitSt_short_circuit w host _ p v hw hv hne

theorem setupGitCredentialHelper_idempotent_witness :
    V2.runGlabAuthSetupGitSt ⟨0, "/usr/bin/glab", ""⟩ false "gitlab.com"
        (V2.runGlabAuthSetupGitSt ⟨0, "/usr/bin/glab", ""⟩ false "gitlab.com"
          ⟨[], []⟩).2.1
      = (true,
         (V2.runGlabAuthSetupGitSt ⟨0, "/usr/bin/glab", ""⟩ false "gitlab.com"
           ⟨[], []⟩).2.1, []) :=
  setupGitCredentialHelper_idempotent ⟨0, "/usr/bin/glab", ""⟩ false "gitlab.com"
    ⟨[], []⟩ (by decide)
